import Mathlib

/-!
Verification of the analysis screen `GithubInputPage.jsx` of the
AI-Powered-GitHub_Profile_Analyzer repository.

The component's pure helpers (`fetchWithTimeout`, `getResponseError`,
`sanitizeLogEntry`, `formatBytes`, `derivedCareerActions`) and the
orchestrating handler `handleAnalyze` are shallowly embedded below.
JavaScript strings become `String`, JS numbers used as byte counts or
timeouts become `Nat`, skill scores become `Int`, and the asynchronous
network is modelled by an explicit environment describing how each of
the two backend calls would behave.  Wall-clock timestamps attached to
log entries are environment-dependent and are elided: the log list is
modelled as the list of log messages, in append order.
-/

namespace GithubInput

/-- The set of characters matched by the JavaScript regexp class `\s`
(also the set removed by `String.prototype.trim`). -/
def isJsWs (c : Char) : Bool :=
  c.val = 9 || c.val = 10 || c.val = 11 || c.val = 12 || c.val = 13 ||
  c.val = 32 || c.val = 160 || c.val = 0x1680 ||
  (0x2000 ≤ c.val && c.val ≤ 0x200A) ||
  c.val = 0x2028 || c.val = 0x2029 || c.val = 0x202F || c.val = 0x205F ||
  c.val = 0x3000 || c.val = 0xFEFF

/-- `String.prototype.trim` on the character list. -/
def jsTrimList (l : List Char) : List Char :=
  ((l.dropWhile isJsWs).reverse.dropWhile isJsWs).reverse

/-- JavaScript `s.trim()`. -/
def jsTrim (s : String) : String :=
  String.mk (jsTrimList s.data)

/-- A JavaScript value as far as this component inspects one: either a
string, or some other value of which only the truthiness and the
`String(...)` conversion are ever used. -/
inductive JsVal : Type
  | vstr (s : String)
  | vother (truthy : Bool) (str : String)
  deriving DecidableEq

/-- JavaScript truthiness of a `JsVal`. -/
def jsTruthy : JsVal → Bool
  | .vstr s => s ≠ ""
  | .vother t _ => t

/-- JavaScript `String(...)` conversion of a `JsVal`. -/
def jsValToString : JsVal → String
  | .vstr s => s
  | .vother _ str => str

/-- The string content of a `JsVal` when `typeof v === "string"`. -/
def jsAsString : JsVal → Option String
  | .vstr s => some s
  | .vother _ _ => none

/-! ### `sanitizeLogEntry` -/

/-- Whether a character is a backtick, the delimiter of fenced code
blocks. -/
def isBacktick (c : Char) : Bool := c.val = 96

/-- Locates the first occurrence of three consecutive backticks in `l`,
returning the characters before it and the characters after it. -/
def findFence : List Char → Option (List Char × List Char)
  | c1 :: c2 :: c3 :: rest =>
    if isBacktick c1 && isBacktick c2 && isBacktick c3 then
      some ([], rest)
    else
      match findFence (c2 :: c3 :: rest) with
      | some (pre, suf) => some (c1 :: pre, suf)
      | none => none
  | _ => none

/-- One global pass of the JS replacement `entry.replace(/three
backticks, lazily anything, three backticks/g, "")`: each leftmost
match pairs an opening fence with the earliest closing fence after it
and is deleted; scanning resumes after the deleted match.  If the first
fence has no closing fence, no match exists anywhere and the input is
returned unchanged.  The fuel argument (always instantiated with the
list length, which each round strictly decreases by at least six) keeps
the recursion structural. -/
def removeFencesAux : Nat → List Char → List Char
  | 0, l => l
  | fuel + 1, l =>
    match findFence l with
    | none => l
    | some (pre, rest) =>
      match findFence rest with
      | none => l
      | some (_, rest2) => pre ++ removeFencesAux fuel rest2

/-- JS `entry.replace(/fenced code block/g, "")` on a character list. -/
def removeFences (l : List Char) : List Char :=
  removeFencesAux l.length l

/-- JS `replace(/\s+/g, " ")`: each maximal run of whitespace becomes a
single space.  `prevWs` records whether the previous character belonged
to a run already replaced. -/
def collapseWsAux : List Char → Bool → List Char
  | [], _ => []
  | c :: rest, prevWs =>
    if isJsWs c then
      if prevWs then collapseWsAux rest true
      else ' ' :: collapseWsAux rest true
    else c :: collapseWsAux rest false

/-- `sanitizeLogEntry` from the source.  A non-string argument is
`none`; the source returns `""` for it.  Otherwise: remove fenced code
blocks, look up the first colon with `indexOf(":")` and cut there,
collapse whitespace runs, trim. -/
def sanitizeLogEntry (entry : Option String) : String :=
  match entry with
  | none => ""
  | some s =>
    let withoutCodeBlocks := removeFences s.data
    let colonIndex := List.findIdx? (fun c => c = ':') withoutCodeBlocks
    let trimmed :=
      match colonIndex with
      | some i => withoutCodeBlocks.take i
      | none => withoutCodeBlocks
    String.mk (jsTrimList (collapseWsAux trimmed false))

/-- Spec-side stage: truncate at the first colon, dropping the colon and
everything after it. -/
def truncateAtFirstColon (l : List Char) : List Char :=
  l.takeWhile (fun c => !decide (c = ':'))

/-- Spec-side stage: collapse each whitespace run to one space. -/
def collapseWhitespace (l : List Char) : List Char :=
  collapseWsAux l false

/-- The sanitizer as the spec phrases it: remove fenced code blocks,
then truncate at the first colon, then collapse whitespace runs, then
trim. -/
def sanitizeSpec (s : String) : String :=
  String.mk (jsTrimList (collapseWhitespace (truncateAtFirstColon (removeFences s.data))))

/-! ### `formatBytes` -/

/-- Fuel-driven floor logarithm: `logFloorAux fuel b n` counts how often
`n` can be divided by `b` before falling below `b`. -/
def logFloorAux : Nat → Nat → Nat → Nat
  | 0, _, _ => 0
  | fuel + 1, b, n => if b ≤ n ∧ 2 ≤ b then logFloorAux fuel b (n / b) + 1 else 0

/-- `Math.floor(Math.log n / Math.log b)` for a positive integer `n`,
modelled over the exact reals (the double-precision evaluation in the
source agrees on every input the specification mentions). -/
def logFloor (b n : Nat) : Nat := logFloorAux n b n

/-- `formatBytes` from the source.  `toFixed(1)` is modelled as exact
rounding of `bytes / 1024 ^ index` to one decimal place, half away from
zero; on the inputs the specification mentions the division is exact,
so no rounding-mode subtlety arises. -/
def formatBytes (bytes : Nat) : String :=
  if bytes = 0 then "0 B"
  else
    let units := ["B", "KB", "MB", "GB", "TB"]
    let index := logFloor 1024 bytes
    let p := 1024 ^ index
    let value10 := (bytes * 10 * 2 + p) / (2 * p)
    toString (value10 / 10) ++ "." ++ toString (value10 % 10) ++ " " ++ units.getD index ("")

/-! ### `derivedCareerActions` -/

/-- `numeric_analysis` payload: a mapping from skill names to scores
(`Object.entries` order is the list order) and an overall score.  A
`none` in `skills` models an absent or falsy `skills` property. -/
structure NumericInsights : Type where
  skills : Option (List (String × Int))
  overall_score : Option Int
  deriving DecidableEq

/-- The suggestion string pushed for one low-scoring skill. -/
def suggestionText (skill : String) (score : Int) : String :=
  skill ++ " skills are at " ++ toString score ++
    ". Focus on targeted projects or courses to lift this metric."

/-- `derivedCareerActions` from the source: walk the skill entries,
push a suggestion for every score below 50, and `slice(0, 4)` the
result.  `none` insights (or a falsy `skills` property) yield `[]`. -/
def derivedCareerActions (numericInsights : Option NumericInsights) : List String :=
  match numericInsights with
  | none => []
  | some ni =>
    match ni.skills with
    | none => []
    | some entries =>
      (entries.foldl
        (fun actions p =>
          if p.2 < 50 then actions ++ [suggestionText p.1 p.2] else actions)
        []).take 4

/-! ### Responses and error extraction -/

/-- An HTTP response carrying a body of expected parsed shape `α`:
its status code and the result of parsing the body as JSON (`none` when
the body does not parse). -/
structure Response (α : Type) : Type where
  status : Nat
  body : Option α
  deriving DecidableEq

/-- `response.ok` of the Fetch API: status in the range 200..299. -/
def Response.ok {α : Type} (r : Response α) : Bool :=
  decide (200 ≤ r.status) && decide (r.status < 300)

/-- What `getResponseError` inspects of a response: the status and, when
the body parses as JSON, the value of its `error` property (`none` for
an absent property). -/
structure ErrResponse : Type where
  status : Nat
  parsedError : Option (Option JsVal)
  deriving DecidableEq

/-- `getResponseError` from the source: if the cloned body parses and
its `error` property is a string with non-blank trim, return it
verbatim; otherwise return the canned 404 message for status 404, and
the caller-supplied fallback for every other status. -/
def getResponseError (response : ErrResponse) (fallback : String) : String :=
  let fromBody : Option String :=
    match response.parsedError with
    | some (some (JsVal.vstr s)) => if jsTrim s ≠ "" then some s else none
    | _ => none
  match fromBody with
  | some s => s
  | none =>
    if response.status = 404 then "GitHub user not found."
    else fallback

/-- The parsed JSON document of the profile call.  The component reads
only its `error` property on failure; the successful payload is opaque
to every claim and abstracted to an identifier. -/
structure ProfileDoc : Type where
  errorField : Option JsVal
  payloadId : Nat
  deriving DecidableEq

/-- The parsed JSON document of the AI call: its `error` property, the
`text_analysis` property (a `none` models an absent property), the
`numeric_analysis` property (kept only when it is an object), and the
`logs` property (a `some` models an array value). -/
structure AiDoc : Type where
  errorField : Option JsVal
  text_analysis : Option JsVal
  numeric_analysis : Option NumericInsights
  logs : Option (List JsVal)
  deriving DecidableEq

/-- View a full response as the part `getResponseError` inspects,
`ef` extracting the `error` property from a parsed body. -/
def toErrResponse {α : Type} (r : Response α) (ef : α → Option JsVal) : ErrResponse :=
  { status := r.status, parsedError := r.body.map ef }

/-- The error message the profile branch of `handleAnalyze` computes for
a non-success response: start from the default, replace it by the parsed
body's truthy `error` value (`errorData.error || errorMessage`), or by
`getResponseError` when the body does not parse; then override it for
statuses 404 and 403 regardless of the body. -/
def profileErrorMessage (r : Response ProfileDoc) : String :=
  let base := "Failed to fetch GitHub profile data"
  let fromBody :=
    match r.body with
    | some d =>
      match d.errorField with
      | some v => if jsTruthy v then jsValToString v else base
      | none => base
    | none => getResponseError (toErrResponse r ProfileDoc.errorField) base
  if r.status = 404 then "GitHub user not found. Please check the username."
  else if r.status = 403 then "GitHub API rate limit exceeded. Please try again later."
  else fromBody

/-! ### The timed fetch wrapper -/

/-- A JavaScript `Error`-like value: its `name` and `message`. -/
structure JsError : Type where
  name : String
  message : String
  deriving DecidableEq

/-- The error a fetch rejects with after `controller.abort()`.  Its
message text is engine-specific and never reaches the user (the catch
branch matches on the name alone). -/
def abortError : JsError :=
  { name := "AbortError", message := "The operation was aborted" }

/-- The error `response.json()` throws on an unparsable body.  The
message text is engine-specific. -/
def jsonParseError : JsError :=
  { name := "SyntaxError", message := "Unexpected token in JSON" }

/-- How the network would treat one request, absent any abort: resolve
with a response after `delay` milliseconds, reject with an error after
`delay` milliseconds, or never settle. -/
inductive NetBehavior (α : Type) : Type
  | resolves (delay : Nat) (r : α)
  | rejects (delay : Nat) (e : JsError)
  | hangs

/-- The outcome of an awaited fetch: a response, or a rejection. -/
inductive CallResult (α : Type) : Type
  | resp (r : α)
  | failure (e : JsError)
  deriving DecidableEq

/-- When the network would settle, in milliseconds. -/
def netSettleTime {α : Type} : NetBehavior α → Option Nat
  | .resolves d _ => some d
  | .rejects d _ => some d
  | .hangs => none

/-- `VALIDATION_TIMEOUT` from the source (declared, never used). -/
def VALIDATION_TIMEOUT : Nat := 8000

/-- `PROFILE_TIMEOUT` from the source: 120 seconds in milliseconds. -/
def PROFILE_TIMEOUT : Nat := 120000

/-- `AI_TIMEOUT` from the source: 150 seconds in milliseconds. -/
def AI_TIMEOUT : Nat := 150000

/-- `fetchWithTimeout` from the source: start a timer that aborts the
request after `timeout` milliseconds; award the race to the network when
it settles within the timeout, and to the abort otherwise (an aborted
fetch rejects with an `AbortError`). -/
def fetchWithTimeout {α : Type} (net : NetBehavior α) (timeout : Nat) : CallResult α :=
  match net with
  | .resolves d r => if timeout < d then .failure abortError else .resp r
  | .rejects d e => if timeout < d then .failure abortError else .failure e
  | .hangs => .failure abortError

/-! ### The orchestrator `handleAnalyze` -/

/-- The component state touched by `handleAnalyze` (the `username`
input field is passed separately, as its hook lives outside the
handler).  `logs` is the list of log messages in append order; the
wall-clock timestamp and derived id of each entry are elided. -/
structure PageState : Type where
  error : String
  loading : Bool
  logs : List String
  githubData : Option ProfileDoc
  aiInsights : Option JsVal
  numericInsights : Option NumericInsights
  deriving DecidableEq

/-- The `useState` initial values. -/
def initialState : PageState :=
  { error := "", loading := false, logs := [], githubData := none,
    aiInsights := none, numericInsights := none }

/-- `appendLog` from the source: a falsy (empty) message is dropped,
any other message is appended at the end of the log list. -/
def appendLog (st : PageState) (message : String) : PageState :=
  if message = "" then st
  else { st with logs := st.logs ++ [message] }

/-- How the network would treat the two backend calls of one run. -/
structure Env : Type where
  profileNet : NetBehavior (Response ProfileDoc)
  aiNet : NetBehavior (Response AiDoc)

/-- The observable outcome of one `handleAnalyze` run: the final
component state, and whether each of the two network requests was
issued. -/
structure RunResult : Type where
  state : PageState
  profileCalled : Bool
  aiCalled : Bool
  deriving DecidableEq

/-- The catch branch of `handleAnalyze`: log "Analysis failed"; surface
the timeout message when the caught error is an `AbortError`, and the
error's own message (or the generic fallback when that is empty)
otherwise; the finally branch then clears the loading flag. -/
def failRun (st : PageState) (e : JsError) (pc ac : Bool) : RunResult :=
  { state :=
      { appendLog st ("Analysis failed") with
          error :=
            if e.name = "AbortError" then "Request timed out. Please try again."
            else if e.message = "" then "Something went wrong. Try again." else e.message,
          loading := false },
    profileCalled := pc, aiCalled := ac }

/-- `x || null` for an optional `text_analysis` property: a present
truthy value is kept, anything else becomes null. -/
def jsOrNull (o : Option JsVal) : Option JsVal :=
  match o with
  | some v => if jsTruthy v then some v else none
  | none => none

/-- The AI half of the `try` block of `handleAnalyze`, entered with the
state as it stands after the profile payload was stored and the two
profile-success log lines were appended: issue the timed AI fetch,
classify its failure through `getResponseError`, or store the insights,
append the sanitized backend log entries and the completion log line;
every branch ends through the catch and/or finally logic of `failRun`
or clears the loading flag. -/
def aiPhase (st3 : PageState) (env : Env) : RunResult :=
  match fetchWithTimeout env.aiNet AI_TIMEOUT with
  | .failure e => failRun st3 e true true
  | .resp aiRes =>
    if aiRes.ok = false then
      failRun st3
        { name := "Error",
          message := getResponseError (toErrResponse aiRes AiDoc.errorField) "AI analysis failed" }
        true true
    else
      match aiRes.body with
      | none => failRun st3 jsonParseError true true
      | some aiResult =>
        let st4 := { st3 with
          aiInsights := jsOrNull aiResult.text_analysis,
          numericInsights := aiResult.numeric_analysis }
        let st5 :=
          match aiResult.logs with
          | some l =>
            if 0 < l.length then
              ((l.map (fun v => sanitizeLogEntry (jsAsString v))).filter
                (fun s => s ≠ "")).foldl appendLog st4
            else st4
          | none => st4
        let st6 := appendLog st5 ("AI pipeline completed successfully")
        { state := { st6 with loading := false }, profileCalled := true, aiCalled := true }

/-- The state after a successful profile fetch delivered `profileData`:
the payload is stored and the two profile-success log lines follow the
request log line. -/
def afterProfile (st0 : PageState) (profileData : ProfileDoc) : PageState :=
  let st1 := appendLog st0 ("Requesting repository intelligence from backend")
  let st2 := appendLog { st1 with githubData := some profileData } "Repository summary received"
  appendLog st2 ("Sending profile summary to AI pipeline")

/-- The body of the `try` block of `handleAnalyze`, starting from the
state as it stands after the initial clearing: log the request, issue
the timed profile fetch, classify its failure or store its payload and
continue with the AI phase. -/
def runPipeline (st0 : PageState) (env : Env) : RunResult :=
  let st1 := appendLog st0 ("Requesting repository intelligence from backend")
  match fetchWithTimeout env.profileNet PROFILE_TIMEOUT with
  | .failure e => failRun st1 e true false
  | .resp profileRes =>
    if profileRes.ok = false then
      failRun st1 { name := "Error", message := profileErrorMessage profileRes } true false
    else
      match profileRes.body with
      | none => failRun st1 jsonParseError true false
      | some profileData => aiPhase (afterProfile st0 profileData) env

/-- The initial clearing of a run: reset the error, raise the loading
flag, discard the profile data, AI insights, numeric insights and log
list, and log the kickstart message. -/
def clearForRun (st : PageState) : PageState :=
  appendLog
    { st with error := "", loading := true, githubData := none,
              aiInsights := none, numericInsights := none, logs := [] }
    "Kickstarting GitHub profile analysis"

/-- `handleAnalyze` from the source: an empty trimmed username short
circuits to the validation error without any network traffic; otherwise
the state is cleared and the two-stage fetch pipeline runs. -/
def handleAnalyze (username : String) (st : PageState) (env : Env) : RunResult :=
  if jsTrim username = "" then
    { state := { st with error := "Username cannot be empty" },
      profileCalled := false, aiCalled := false }
  else
    runPipeline (clearForRun st) env

/-! ### Helper lemmas -/

lemma appendLog_error (st : PageState) (m : String) : (appendLog st m).error = st.error := by
  unfold appendLog; split <;> rfl

lemma appendLog_githubData (st : PageState) (m : String) :
    (appendLog st m).githubData = st.githubData := by
  unfold appendLog; split <;> rfl

lemma appendLog_aiInsights (st : PageState) (m : String) :
    (appendLog st m).aiInsights = st.aiInsights := by
  unfold appendLog; split <;> rfl

lemma appendLog_numericInsights (st : PageState) (m : String) :
    (appendLog st m).numericInsights = st.numericInsights := by
  unfold appendLog; split <;> rfl

lemma foldl_appendLog_error (l : List String) :
    ∀ st : PageState, (l.foldl appendLog st).error = st.error := by
  induction l with
  | nil => intro st; rfl
  | cons a l ih =>
    intro st
    rw [List.foldl_cons, ih (appendLog st a), appendLog_error]

lemma failRun_logs_mem (st : PageState) (e : JsError) (pc ac : Bool) :
    "Analysis failed" ∈ (failRun st e pc ac).state.logs := by
  simp only [failRun, appendLog]
  rw [if_neg (by decide : ¬("Analysis failed" = ""))]
  simp

lemma failRun_error_abort (st : PageState) (e : JsError) (pc ac : Bool)
    (h : e.name = "AbortError") :
    (failRun st e pc ac).state.error = "Request timed out. Please try again." := by
  simp only [failRun]
  rw [if_pos h]

lemma failRun_error_message (st : PageState) (e : JsError) (pc ac : Bool)
    (h : e.name ≠ "AbortError") (hm : e.message ≠ "") :
    (failRun st e pc ac).state.error = e.message := by
  simp only [failRun]
  rw [if_neg h, if_neg hm]

lemma failRun_error_thrown (st : PageState) (m : String) (pc ac : Bool)
    (hm : m ≠ "") :
    (failRun st { name := "Error", message := m } pc ac).state.error = m := by
  simp only [failRun]
  rw [if_neg (by decide : ¬("Error" = "AbortError")), if_neg hm]

lemma fetchWithTimeout_resolve {α : Type} (d : Nat) (r : α) (t : Nat) (h : d ≤ t) :
    fetchWithTimeout (NetBehavior.resolves d r) t = CallResult.resp r := by
  simp only [fetchWithTimeout]
  rw [if_neg (by omega)]

lemma fetchWithTimeout_timeout {α : Type} (net : NetBehavior α) (t : Nat)
    (h : ∀ d, netSettleTime net = some d → t < d) :
    fetchWithTimeout net t = CallResult.failure abortError := by
  cases net with
  | resolves d r => simp only [fetchWithTimeout]; rw [if_pos (h d rfl)]
  | rejects d e => simp only [fetchWithTimeout]; rw [if_pos (h d rfl)]
  | hangs => rfl

lemma handleAnalyze_nonempty (u : String) (st : PageState) (env : Env)
    (hu : jsTrim u ≠ "") :
    handleAnalyze u st env = runPipeline (clearForRun st) env := by
  unfold handleAnalyze
  rw [if_neg hu]

lemma clearForRun_error (st : PageState) : (clearForRun st).error = "" := by
  unfold clearForRun
  rw [appendLog_error]

lemma runPipeline_profile_failure (st0 : PageState) (env : Env) (e : JsError)
    (h : fetchWithTimeout env.profileNet PROFILE_TIMEOUT = CallResult.failure e) :
    runPipeline st0 env =
      failRun (appendLog st0 ("Requesting repository intelligence from backend")) e true false := by
  unfold runPipeline
  rw [h]

lemma runPipeline_profile_notOk (st0 : PageState) (env : Env) (r : Response ProfileDoc)
    (h : fetchWithTimeout env.profileNet PROFILE_TIMEOUT = CallResult.resp r)
    (hok : r.ok = false) :
    runPipeline st0 env =
      failRun (appendLog st0 ("Requesting repository intelligence from backend"))
        { name := "Error", message := profileErrorMessage r } true false := by
  unfold runPipeline
  rw [h]
  simp [hok]

lemma runPipeline_profile_success (st0 : PageState) (env : Env)
    (r : Response ProfileDoc) (pdoc : ProfileDoc)
    (h : fetchWithTimeout env.profileNet PROFILE_TIMEOUT = CallResult.resp r)
    (hok : r.ok = true) (hb : r.body = some pdoc) :
    runPipeline st0 env = aiPhase (afterProfile st0 pdoc) env := by
  unfold runPipeline
  rw [h]
  simp [hok, hb]

lemma aiPhase_failure (st3 : PageState) (env : Env) (e : JsError)
    (h : fetchWithTimeout env.aiNet AI_TIMEOUT = CallResult.failure e) :
    aiPhase st3 env = failRun st3 e true true := by
  unfold aiPhase
  rw [h]

lemma aiPhase_notOk (st3 : PageState) (env : Env) (ra : Response AiDoc)
    (h : fetchWithTimeout env.aiNet AI_TIMEOUT = CallResult.resp ra)
    (hok : ra.ok = false) :
    aiPhase st3 env =
      failRun st3
        { name := "Error",
          message := getResponseError (toErrResponse ra AiDoc.errorField) "AI analysis failed" }
        true true := by
  unfold aiPhase
  rw [h]
  simp [hok]

lemma aiPhase_profileCalled (st3 : PageState) (env : Env) :
    (aiPhase st3 env).profileCalled = true := by
  unfold aiPhase
  split
  · rfl
  · split
    · rfl
    · split
      · rfl
      · rfl

lemma runPipeline_profileCalled (st0 : PageState) (env : Env) :
    (runPipeline st0 env).profileCalled = true := by
  unfold runPipeline
  split
  · rfl
  · split
    · rfl
    · split
      · rfl
      · exact aiPhase_profileCalled ..

lemma aiPhase_error_or_mem (st3 : PageState) (env : Env) :
    (aiPhase st3 env).state.error = st3.error
    ∨ "Analysis failed" ∈ (aiPhase st3 env).state.logs := by
  unfold aiPhase
  split
  · right; apply failRun_logs_mem
  · split
    · right; apply failRun_logs_mem
    · split
      · right; apply failRun_logs_mem
      · left
        rw [appendLog_error]
        split
        · split
          · rw [foldl_appendLog_error]
          · rfl
        · rfl

lemma runPipeline_error_or_mem (st0 : PageState) (env : Env) :
    (runPipeline st0 env).state.error = st0.error
    ∨ "Analysis failed" ∈ (runPipeline st0 env).state.logs := by
  unfold runPipeline
  split
  · right; apply failRun_logs_mem
  · split
    · right; apply failRun_logs_mem
    · split
      · right; apply failRun_logs_mem
      · rename_i pdoc hbody
        rcases aiPhase_error_or_mem (afterProfile st0 pdoc) env with h | h
        · left
          rw [h]
          unfold afterProfile
          rw [appendLog_error, appendLog_error, appendLog_error]
        · right; exact h

lemma findIdx?_shift {α : Type} (p : α → Bool) :
    ∀ (l : List α) (i : Nat),
      List.findIdx? p l (i + 1) = (List.findIdx? p l i).map (· + 1) := by
  intro l
  induction l with
  | nil => intro i; rfl
  | cons a l ih =>
    intro i
    rw [List.findIdx?_cons, List.findIdx?_cons]
    by_cases h : p a = true
    · rw [if_pos h, if_pos h]; rfl
    · rw [if_neg h, if_neg h, ih]

lemma take_findIdx?_eq_takeWhile {α : Type} (p : α → Bool) :
    ∀ l : List α,
      (match List.findIdx? p l with
       | some i => l.take i
       | none => l) = l.takeWhile (fun c => !p c) := by
  intro l
  induction l with
  | nil => rfl
  | cons a l ih =>
    rw [List.findIdx?_cons, List.takeWhile_cons]
    by_cases h : p a = true
    · rw [if_pos h]
      simp [h]
    · rw [if_neg h]
      rw [show (1 : Nat) = 0 + 1 from rfl, findIdx?_shift]
      have hnb : (!p a) = true := by
        simp only [Bool.not_eq_true] at h
        simp [h]
      rw [if_pos hnb]
      cases hfi : List.findIdx? p l 0 with
      | none =>
        rw [hfi] at ih
        have ih2 : l = List.takeWhile (fun c => !p c) l := ih
        simp only [hfi, Option.map_none']
        exact congrArg (List.cons a) ih2
      | some j =>
        rw [hfi] at ih
        have ih2 : List.take j l = List.takeWhile (fun c => !p c) l := ih
        simp only [hfi, Option.map_some']
        rw [List.take_succ_cons]
        exact congrArg (List.cons a) ih2

lemma foldl_push_eq_filter_map :
    ∀ (l : List (String × Int)) (acc : List String),
      l.foldl
        (fun actions p =>
          if p.2 < 50 then actions ++ [suggestionText p.1 p.2] else actions)
        acc
        = acc ++ (l.filter (fun p => decide (p.2 < 50))).map
            (fun p => suggestionText p.1 p.2) := by
  intro l
  induction l with
  | nil => intro acc; simp
  | cons a l ih =>
    intro acc
    rw [List.foldl_cons, List.filter_cons]
    by_cases h : a.2 < 50
    · rw [if_pos h, if_pos (by simpa using h), ih]
      simp
    · rw [if_neg h, if_neg (by simpa using h), ih]

/-! ### Concrete fixtures used by the witnesses -/

/-- An environment in which neither backend call ever settles. -/
def envHang : Env := { profileNet := NetBehavior.hangs, aiNet := NetBehavior.hangs }

/-- A successful profile response with an opaque payload. -/
def okProfileDoc : ProfileDoc := { errorField := none, payloadId := 0 }

/-- A 200 profile response. -/
def okProfileResponse : Response ProfileDoc := { status := 200, body := some okProfileDoc }

/-! ### Claims -/

/-- C3: the log sanitizer returns the empty string on non-string input;
on a string it removes every fenced code-block segment, then truncates
at the first colon, then collapses whitespace runs to single spaces and
trims; and in particular it maps the spec's example, a build-failure
line with a fenced stack trace, to exactly "build failed". -/
theorem sanitizeLogEntry_spec :
    sanitizeLogEntry none = ""
    ∧ (∀ s : String, sanitizeLogEntry (some s) = sanitizeSpec s)
    ∧ sanitizeLogEntry (some ("build failed: ```stack trace``` extra")) = "build failed" := by
  refine ⟨rfl, ?_, by decide⟩
  intro s
  simp only [sanitizeLogEntry, sanitizeSpec, truncateAtFirstColon, collapseWhitespace]
  rw [take_findIdx?_eq_takeWhile]

/-- C4: the derived action list holds one suggestion naming the skill
and its score for each skill scoring strictly below 50, in mapping
iteration order, capped at 4 entries; absent numeric insights or an
absent skills mapping yield the empty list. -/
theorem derivedCareerActions_spec :
    (∀ (entries : List (String × Int)) (os : Option Int),
      derivedCareerActions (some { skills := some entries, overall_score := os })
        = ((entries.filter (fun p => decide (p.2 < 50))).map
            (fun p => suggestionText p.1 p.2)).take 4)
    ∧ derivedCareerActions none = []
    ∧ (∀ os : Option Int,
        derivedCareerActions (some { skills := none, overall_score := os }) = []) := by
  refine ⟨?_, rfl, fun os => rfl⟩
  intro entries os
  simp only [derivedCareerActions]
  rw [foldl_push_eq_filter_map]
  rw [List.nil_append]

/-- C5: an empty or whitespace-only username (empty after trimming)
short-circuits the run: no network call is issued, the error state
becomes exactly "Username cannot be empty" and nothing else changes. -/
theorem emptyUsername_no_network (u : String) (st : PageState) (env : Env)
    (hu : jsTrim u = "") :
    handleAnalyze u st env =
      { state := { st with error := "Username cannot be empty" },
        profileCalled := false, aiCalled := false } := by
  unfold handleAnalyze
  rw [if_pos hu]

/-- Witness for C5 at the whitespace-only username "   ". -/
theorem emptyUsername_no_network_witness :
    handleAnalyze ("   ") initialState envHang =
      { state := { initialState with error := "Username cannot be empty" },
        profileCalled := false, aiCalled := false } :=
  emptyUsername_no_network ("   ") initialState envHang (by decide)

/-- C9: the byte-size formatter maps 0 to exactly "0 B" and 1536 to
exactly "1.5 KB". -/
theorem formatBytes_examples :
    formatBytes 0 = "0 B" ∧ formatBytes 1536 = "1.5 KB" := by
  exact ⟨by decide, by decide⟩

/-- A profile response fixture: status 404 with a body carrying its own
error text, which the canned message must override. -/
def respP404 : Response ProfileDoc :=
  { status := 404, body := some { errorField := some (JsVal.vstr ("body error text")), payloadId := 1 } }

/-- A profile response fixture: status 403 with a body carrying its own
error text, which the canned message must override. -/
def respP403 : Response ProfileDoc :=
  { status := 403, body := some { errorField := some (JsVal.vstr ("body error text")), payloadId := 2 } }

/-- A profile response fixture: status 500 whose body parses but has no
error property. -/
def respP500 : Response ProfileDoc :=
  { status := 500, body := some { errorField := none, payloadId := 3 } }

/-- An environment delivering `respP404` immediately on the profile call. -/
def envP404 : Env := { profileNet := NetBehavior.resolves 0 respP404, aiNet := NetBehavior.hangs }

/-- An environment delivering `respP403` immediately on the profile call. -/
def envP403 : Env := { profileNet := NetBehavior.resolves 0 respP403, aiNet := NetBehavior.hangs }

/-- An environment delivering `respP500` immediately on the profile call. -/
def envP500 : Env := { profileNet := NetBehavior.resolves 0 respP500, aiNet := NetBehavior.hangs }

/-- C1: whenever the profile call resolves within its timeout, a 404
status surfaces exactly "GitHub user not found. Please check the
username." and a 403 status surfaces exactly "GitHub API rate limit
exceeded. Please try again later.", regardless of the response body
(the body is universally quantified inside `r`). -/
theorem profileCall_404_403_messages (u : String) (st : PageState) (env : Env)
    (d : Nat) (r : Response ProfileDoc)
    (hu : jsTrim u ≠ "") (hp : env.profileNet = NetBehavior.resolves d r)
    (hd : d ≤ PROFILE_TIMEOUT) :
    (r.status = 404 →
      (handleAnalyze u st env).state.error = "GitHub user not found. Please check the username.")
    ∧ (r.status = 403 →
      (handleAnalyze u st env).state.error = "GitHub API rate limit exceeded. Please try again later.") := by
  have hf : fetchWithTimeout env.profileNet PROFILE_TIMEOUT = CallResult.resp r := by
    rw [hp]
    exact fetchWithTimeout_resolve d r PROFILE_TIMEOUT hd
  constructor
  · intro h404
    have hok : r.ok = false := by
      unfold Response.ok
      rw [h404]
      rfl
    have hmsg : profileErrorMessage r = "GitHub user not found. Please check the username." := by
      simp only [profileErrorMessage]
      rw [if_pos h404]
    rw [handleAnalyze_nonempty u st env hu,
        runPipeline_profile_notOk (clearForRun st) env r hf hok,
        failRun_error_thrown _ _ _ _ (by rw [hmsg]; decide)]
    exact hmsg
  · intro h403
    have hok : r.ok = false := by
      unfold Response.ok
      rw [h403]
      rfl
    have hmsg : profileErrorMessage r = "GitHub API rate limit exceeded. Please try again later." := by
      simp only [profileErrorMessage]
      rw [if_neg (by rw [h403]; decide), if_pos h403]
    rw [handleAnalyze_nonempty u st env hu,
        runPipeline_profile_notOk (clearForRun st) env r hf hok,
        failRun_error_thrown _ _ _ _ (by rw [hmsg]; decide)]
    exact hmsg

/-- Witness for C1: both canned messages at concrete 404 and 403
responses whose bodies carry a different error text. -/
theorem profileCall_404_403_messages_witness :
    (handleAnalyze ("alice") initialState envP404).state.error
      = "GitHub user not found. Please check the username."
    ∧ (handleAnalyze ("alice") initialState envP403).state.error
      = "GitHub API rate limit exceeded. Please try again later." :=
  ⟨(profileCall_404_403_messages ("alice") initialState envP404 0 respP404
      (by decide) rfl (by decide)).1 rfl,
   (profileCall_404_403_messages ("alice") initialState envP403 0 respP403
      (by decide) rfl (by decide)).2 rfl⟩

/-- C10: a non-success profile response whose status is neither 404 nor
403 and whose body parses as JSON without a truthy error property
surfaces exactly "Failed to fetch GitHub profile data". -/
theorem profileCall_default_message (u : String) (st : PageState) (env : Env)
    (d : Nat) (r : Response ProfileDoc) (doc : ProfileDoc)
    (hu : jsTrim u ≠ "") (hp : env.profileNet = NetBehavior.resolves d r)
    (hd : d ≤ PROFILE_TIMEOUT) (hok : r.ok = false)
    (h404 : r.status ≠ 404) (h403 : r.status ≠ 403)
    (hb : r.body = some doc)
    (hef : ∀ v : JsVal, doc.errorField = some v → jsTruthy v = false) :
    (handleAnalyze u st env).state.error = "Failed to fetch GitHub profile data" := by
  have hf : fetchWithTimeout env.profileNet PROFILE_TIMEOUT = CallResult.resp r := by
    rw [hp]
    exact fetchWithTimeout_resolve d r PROFILE_TIMEOUT hd
  have hmsg : profileErrorMessage r = "Failed to fetch GitHub profile data" := by
    simp only [profileErrorMessage, hb]
    rw [if_neg h404, if_neg h403]
    cases hfe : doc.errorField with
    | none => simp [hfe]
    | some v => simp [hfe, hef v hfe]
  rw [handleAnalyze_nonempty u st env hu,
      runPipeline_profile_notOk (clearForRun st) env r hf hok,
      failRun_error_thrown _ _ _ _ (by rw [hmsg]; decide)]
  exact hmsg

/-- Witness for C10: a concrete 500 response whose body parses with no
error property. -/
theorem profileCall_default_message_witness :
    (handleAnalyze ("alice") initialState envP500).state.error
      = "Failed to fetch GitHub profile data" :=
  profileCall_default_message ("alice") initialState envP500 0 respP500
    { errorField := none, payloadId := 3 }
    (by decide) rfl (by decide) (by decide) (by decide) (by decide) rfl
    (fun v hv => by cases hv)

/-- An environment whose AI call resolves only after the 150-second
timeout has elapsed, following an immediate successful profile call. -/
def envAiSlow : Env :=
  { profileNet := NetBehavior.resolves 0 okProfileResponse,
    aiNet := NetBehavior.resolves 150001
      { status := 200,
        body := some { errorField := none, text_analysis := none,
                       numeric_analysis := none, logs := none } } }

/-- C2: when a call issued through the timed fetch wrapper does not
complete within the call-specific timeout (120000 ms for the profile
call, 150000 ms for the AI call), the wrapper aborts the request (the
fetch settles as an AbortError rejection) and the surfaced error is
exactly "Request timed out. Please try again.". -/
theorem fetchTimeout_aborts_and_surfaces (u : String) (st : PageState) (env : Env)
    (hu : jsTrim u ≠ "") :
    ((∀ d, netSettleTime env.profileNet = some d → PROFILE_TIMEOUT < d) →
      fetchWithTimeout env.profileNet PROFILE_TIMEOUT = CallResult.failure abortError
      ∧ (handleAnalyze u st env).state.error = "Request timed out. Please try again.")
    ∧ (∀ (dp : Nat) (rp : Response ProfileDoc) (pdoc : ProfileDoc),
        env.profileNet = NetBehavior.resolves dp rp → dp ≤ PROFILE_TIMEOUT →
        rp.ok = true → rp.body = some pdoc →
        (∀ d, netSettleTime env.aiNet = some d → AI_TIMEOUT < d) →
        fetchWithTimeout env.aiNet AI_TIMEOUT = CallResult.failure abortError
        ∧ (handleAnalyze u st env).state.error = "Request timed out. Please try again.") := by
  constructor
  · intro hto
    have hf := fetchWithTimeout_timeout env.profileNet PROFILE_TIMEOUT hto
    refine ⟨hf, ?_⟩
    rw [handleAnalyze_nonempty u st env hu,
        runPipeline_profile_failure (clearForRun st) env abortError hf]
    exact failRun_error_abort _ _ _ _ rfl
  · intro dp rp pdoc hp hdp hok hb hto
    have hf := fetchWithTimeout_timeout env.aiNet AI_TIMEOUT hto
    refine ⟨hf, ?_⟩
    have hfp : fetchWithTimeout env.profileNet PROFILE_TIMEOUT = CallResult.resp rp := by
      rw [hp]
      exact fetchWithTimeout_resolve dp rp PROFILE_TIMEOUT hdp
    rw [handleAnalyze_nonempty u st env hu,
        runPipeline_profile_success (clearForRun st) env rp pdoc hfp hok hb,
        aiPhase_failure _ env abortError hf]
    exact failRun_error_abort _ _ _ _ rfl

/-- Witness for C2: a hanging profile call and, separately, an AI call
resolving after 150001 ms both surface the timeout message. -/
theorem fetchTimeout_aborts_and_surfaces_witness :
    (handleAnalyze ("alice") initialState envHang).state.error
      = "Request timed out. Please try again."
    ∧ (handleAnalyze ("alice") initialState envAiSlow).state.error
      = "Request timed out. Please try again." :=
  ⟨((fetchTimeout_aborts_and_surfaces ("alice") initialState envHang (by decide)).1
      (fun d hd => by cases hd)).2,
   ((fetchTimeout_aborts_and_surfaces ("alice") initialState envAiSlow (by decide)).2
      0 okProfileResponse okProfileDoc rfl (by decide) (by decide) rfl
      (fun d hd => by
        have hd2 : (150001 : Nat) = d := Option.some.inj hd
        rw [← hd2]
        decide)).2⟩

lemma getResponseError_verbatim (response : ErrResponse) (fb s : String)
    (h1 : response.parsedError = some (some (JsVal.vstr s))) (h2 : jsTrim s ≠ "") :
    getResponseError response fb = s := by
  simp [getResponseError, h1, h2]

lemma getResponseError_fallback (response : ErrResponse) (fb : String)
    (hnb : ∀ s, response.parsedError = some (some (JsVal.vstr s)) → jsTrim s = "") :
    getResponseError response fb
      = if response.status = 404 then "GitHub user not found." else fb := by
  simp only [getResponseError]
  cases hpe : response.parsedError with
  | none => rfl
  | some pe =>
    cases pe with
    | none => rfl
    | some v =>
      cases v with
      | vother t str => rfl
      | vstr s =>
        have hs := hnb s hpe
        simp [hs]

/-- An AI response fixture: status 403 whose body parses with no error
property. -/
def aiResp403 : Response AiDoc :=
  { status := 403,
    body := some { errorField := none, text_analysis := none,
                   numeric_analysis := none, logs := none } }

/-- An environment with an immediate successful profile call and an
immediate 403 AI response. -/
def envAi403 : Env :=
  { profileNet := NetBehavior.resolves 0 okProfileResponse,
    aiNet := NetBehavior.resolves 0 aiResp403 }

/-- C7: on a non-success AI response the surfaced message is the body's
error string verbatim when it is a non-blank string; otherwise the
not-found message for status 404, and exactly "AI analysis failed" for
every other status — so the canned profile-call 404/403 overrides do
not apply to the AI call (a 403 without a body error surfaces "AI
analysis failed", not a rate-limit message). -/
theorem aiCall_error_messages (u : String) (st : PageState) (env : Env)
    (dp : Nat) (rp : Response ProfileDoc) (pdoc : ProfileDoc)
    (da : Nat) (ra : Response AiDoc)
    (hu : jsTrim u ≠ "") (hp : env.profileNet = NetBehavior.resolves dp rp)
    (hdp : dp ≤ PROFILE_TIMEOUT) (hpok : rp.ok = true) (hpb : rp.body = some pdoc)
    (ha : env.aiNet = NetBehavior.resolves da ra) (hda : da ≤ AI_TIMEOUT)
    (haok : ra.ok = false) :
    (∀ (adoc : AiDoc) (s : String), ra.body = some adoc →
      adoc.errorField = some (JsVal.vstr s) → jsTrim s ≠ "" →
      (handleAnalyze u st env).state.error = s)
    ∧ ((∀ (adoc : AiDoc) (s : String), ra.body = some adoc →
          adoc.errorField = some (JsVal.vstr s) → jsTrim s = "") →
        (ra.status = 404 →
          (handleAnalyze u st env).state.error = "GitHub user not found.")
        ∧ (ra.status ≠ 404 →
          (handleAnalyze u st env).state.error = "AI analysis failed")) := by
  have hfp : fetchWithTimeout env.profileNet PROFILE_TIMEOUT = CallResult.resp rp := by
    rw [hp]
    exact fetchWithTimeout_resolve dp rp PROFILE_TIMEOUT hdp
  have hfa : fetchWithTimeout env.aiNet AI_TIMEOUT = CallResult.resp ra := by
    rw [ha]
    exact fetchWithTimeout_resolve da ra AI_TIMEOUT hda
  have hrun : handleAnalyze u st env =
      failRun (afterProfile (clearForRun st) pdoc)
        { name := "Error",
          message := getResponseError (toErrResponse ra AiDoc.errorField) "AI analysis failed" }
        true true := by
    rw [handleAnalyze_nonempty u st env hu,
        runPipeline_profile_success (clearForRun st) env rp pdoc hfp hpok hpb,
        aiPhase_notOk _ env ra hfa haok]
  constructor
  · intro adoc s hbody hef hne
    have hmsg : getResponseError (toErrResponse ra AiDoc.errorField) "AI analysis failed" = s := by
      apply getResponseError_verbatim _ _ s _ hne
      simp [toErrResponse, hbody, hef]
    rw [hrun, failRun_error_thrown _ _ _ _ (by
          rw [hmsg]
          intro hc
          exact hne (by rw [hc]; rfl))]
    exact hmsg
  · intro hnb
    have hmsg : getResponseError (toErrResponse ra AiDoc.errorField) "AI analysis failed"
        = if ra.status = 404 then "GitHub user not found." else "AI analysis failed" := by
      apply getResponseError_fallback
      intro s hpe
      simp only [toErrResponse] at hpe
      cases hbody : ra.body with
      | none => rw [hbody] at hpe; cases hpe
      | some adoc =>
        rw [hbody] at hpe
        simp only [Option.map_some'] at hpe
        exact hnb adoc s hbody (Option.some.inj hpe)
    constructor
    · intro h404
      rw [hrun, failRun_error_thrown _ _ _ _ (by rw [hmsg, if_pos h404]; decide)]
      rw [hmsg, if_pos h404]
    · intro h404
      rw [hrun, failRun_error_thrown _ _ _ _ (by rw [hmsg, if_neg h404]; decide)]
      rw [hmsg, if_neg h404]

/-- Witness for C7: a concrete 403 AI response without a body error
surfaces "AI analysis failed" rather than a rate-limit message. -/
theorem aiCall_error_messages_witness :
    (handleAnalyze ("alice") initialState envAi403).state.error = "AI analysis failed" :=
  ((aiCall_error_messages ("alice") initialState envAi403 0 okProfileResponse okProfileDoc
      0 aiResp403 (by decide) rfl (by decide) (by decide) rfl rfl (by decide) (by decide)).2
    (fun adoc s hb hef => by
      have h1 : ({ errorField := none, text_analysis := none,
                   numeric_analysis := none, logs := none } : AiDoc) = adoc :=
        Option.some.inj hb
      rw [← h1] at hef
      cases hef)).2 (by decide)

/-- C6 counterexample: triggering analysis with the empty username is a
transition from validation into the error state (the error message is
set), yet no log entry at all is appended — in particular no "Analysis
failed" entry — refuting the claim that every transition into the error
state appends one. -/
theorem errorTransition_always_logs_counterexample :
    (handleAnalyze ("") initialState envHang).state.error = "Username cannot be empty"
    ∧ "Analysis failed" ∉ (handleAnalyze ("") initialState envHang).state.logs
    ∧ (handleAnalyze ("") initialState envHang).state.logs = [] := by
  refine ⟨by decide, by decide, by decide⟩

/-- C6 amended: every transition into the error state that occurs after
validation passed (that is, from the fetch pipeline's catch path)
appends a log entry "Analysis failed"; the validation failure on an
empty username sets the error message without appending any log
entry. -/
theorem errorTransition_logs_analysisFailed (u : String) (st : PageState) (env : Env)
    (hu : jsTrim u ≠ "")
    (herr : (handleAnalyze u st env).state.error ≠ "") :
    "Analysis failed" ∈ (handleAnalyze u st env).state.logs := by
  rw [handleAnalyze_nonempty u st env hu] at herr ⊢
  rcases runPipeline_error_or_mem (clearForRun st) env with h | h
  · exact absurd (h.trans (clearForRun_error st)) herr
  · exact h

/-- Witness for the amended C6: a timed-out run reaches the error state
and its log list contains the "Analysis failed" entry. -/
theorem errorTransition_logs_analysisFailed_witness :
    "Analysis failed" ∈ (handleAnalyze ("alice") initialState envHang).state.logs :=
  errorTransition_logs_analysisFailed ("alice") initialState envHang (by decide) (by decide)

/-- C8: with a non-empty trimmed username, the run routes through the
cleared state: profile data, AI insights, numeric insights and the log
list are all reset before the fetch pipeline starts, the fresh log list
starts with the kickstart entry, and the profile fetch is then
issued. -/
theorem analysisRun_clears_state (u : String) (st : PageState) (env : Env)
    (hu : jsTrim u ≠ "") :
    handleAnalyze u st env = runPipeline (clearForRun st) env
    ∧ (clearForRun st).githubData = none
    ∧ (clearForRun st).aiInsights = none
    ∧ (clearForRun st).numericInsights = none
    ∧ (clearForRun st).logs = ["Kickstarting GitHub profile analysis"]
    ∧ (handleAnalyze u st env).profileCalled = true := by
  refine ⟨handleAnalyze_nonempty u st env hu, ?_, ?_, ?_, ?_, ?_⟩
  · unfold clearForRun
    rw [appendLog_githubData]
  · unfold clearForRun
    rw [appendLog_aiInsights]
  · unfold clearForRun
    rw [appendLog_numericInsights]
  · unfold clearForRun
    simp only [appendLog]
    rw [if_neg (by decide : ¬("Kickstarting GitHub profile analysis" = ""))]
    rfl
  · rw [handleAnalyze_nonempty u st env hu]
    exact runPipeline_profileCalled (clearForRun st) env

/-- Witness for C8 at a concrete username and environment. -/
theorem analysisRun_clears_state_witness :
    handleAnalyze ("alice") initialState envHang = runPipeline (clearForRun initialState) envHang
    ∧ (clearForRun initialState).githubData = none
    ∧ (clearForRun initialState).aiInsights = none
    ∧ (clearForRun initialState).numericInsights = none
    ∧ (clearForRun initialState).logs = ["Kickstarting GitHub profile analysis"]
    ∧ (handleAnalyze ("alice") initialState envHang).profileCalled = true :=
  analysisRun_clears_state ("alice") initialState envHang (by decide)

end GithubInput
